import Mathlib

/-!
Verification of the pdf-to-png event pipeline.

The repository has two trigger variants of the same pipeline:
* a push-endpoint HTTP handler (`src/Docker/pdf-to-png.js`, `app.post('/')`),
  triggered by a queue push envelope, and
* a direct storage-event handler (`src/unnamed/part_000`, `exports.createImage`),
  triggered with an object descriptor.

Both are shallowly embedded below as pure functions over an explicit
environment (outcomes of the external storage / conversion / datastore /
webhook calls) and an explicit order-item store, returning the HTTP status
and a record of the side effects performed.
-/

namespace PdfToPng

/-! ## String operations of the source -/

/-- Embeds `filePath.toLowerCase().endsWith('.pdf')` (pdf-to-png.js line 66,
part_000 line 23) and equally the match condition of the regex
`\.pdf$` with the ignore-case flag used by `filePath.replace` (pdf-to-png.js
line 90, part_000 line 39): the last four characters, lowercased, are `.pdf`.
`Char.toLower` only lowers ASCII letters, which coincides with
`toLowerCase` on the ASCII keys this service handles. -/
def endsWithPdf (s : String) : Bool :=
  match (s.data.map Char.toLower).reverse with
  | c0 :: c1 :: c2 :: c3 :: _ => c0 = 'f' && c1 = 'd' && c2 = 'p' && c3 = '.'
  | _ => false

/-- Embeds `filePath.replace(/\.pdf$/i, '.png')` (pdf-to-png.js line 90,
part_000 line 39, and the local image path in both `convertPdfToImage`s):
if the key ends in `.pdf` case-insensitively, the last four characters are
replaced by `.png`; otherwise the regex does not match and the string is
returned unchanged. -/
def newFilePath (s : String) : String :=
  if endsWithPdf s then String.mk (s.data.take (s.data.length - 4) ++ ".png".data)
  else s

/-! ## Filename contract parser

Embeds `filePath.match(/\(([^)]+)\)\(([^)]+)\)/)` (pdf-to-png.js line 72):
the leftmost occurrence of a literal `(`, one or more non-`)` characters
(group 1), `)`, `(`, one or more non-`)` characters (group 2), `)`.
Because the character class `[^)]` is disjoint from the literal `)` that
follows it, the greedy `+` never backtracks: each group is exactly the
maximal run of non-`)` characters after its opening `(`. -/

/-- Attempt to match the pattern starting exactly at the head of the list,
returning the two capture groups: an opening `(`, a non-empty maximal run
of non-`)` characters, then `)(`, another non-empty maximal run, then `)`. -/
def matchIdsAt (l : List Char) : Option (List Char × List Char) :=
  match l with
  | '(' :: rest =>
    if (rest.takeWhile (fun x => x != ')')).isEmpty then none
    else
      match rest.dropWhile (fun x => x != ')') with
      | ')' :: '(' :: rest2 =>
        if (rest2.takeWhile (fun x => x != ')')).isEmpty then none
        else
          match rest2.dropWhile (fun x => x != ')') with
          | ')' :: _ =>
            some (rest.takeWhile (fun x => x != ')'),
                  rest2.takeWhile (fun x => x != ')'))
          | _ => none
      | _ => none
  | _ => none

/-- Scan left to right for the first position where the pattern matches,
as the JavaScript regex engine does. -/
def findIdsAux : List Char → Option (String × String)
  | [] => none
  | c :: rest =>
    match matchIdsAt (c :: rest) with
    | some (g1, g2) => some (String.mk g1, String.mk g2)
    | none => findIdsAux rest

/-- `filePath.match(/\(([^)]+)\)\(([^)]+)\)/)` as a pair
(orderId, orderItemId) of the two capture groups, or `none` when the regex
does not match (pdf-to-png.js lines 72-79). -/
def findIds (s : String) : Option (String × String) :=
  findIdsAux s.data

/-! ## Data model -/

/-- One record under `orderItems` in the external datastore
(spec section 3, OrderItemRecord). -/
structure OrderItem where
  orderItemId : String
  order : String
  orderItemStatus : String
  pngExtracted : Bool
  deriving DecidableEq

/-- The fixed approved-state sentinel compared against `orderItemStatus`
(pdf-to-png.js line 110). -/
def approvedStatus : String := "-O-MBXnADt_rc_l7Lm8U"

/-- `tablesRef.child('orderItems').child(orderItemId).update({ pngExtracted: true })`
(pdf-to-png.js line 97): sets `pngExtracted` to `true` on the record whose
id matches, leaving every other record and every other field unchanged. -/
def markExtracted (store : List OrderItem) (id : String) : List OrderItem :=
  store.map (fun r => if r.orderItemId = id then { r with pngExtracted := true } else r)

/-- Decoded storage finalize event carried in the push envelope; both
fields are optional because the decoded JSON may lack them
(pdf-to-png.js lines 57-61). -/
structure GcsEvent where
  bucket : Option String
  name : Option String
  deriving DecidableEq

/-- The `message` part of the push envelope (pdf-to-png.js lines 37-49). -/
structure PubSubMessage where
  data : Option String
  deriving DecidableEq

/-- The request body of the push endpoint (pdf-to-png.js line 45). -/
structure ReqBody where
  message : Option PubSubMessage
  deriving DecidableEq

def BUCKET_NAME : String := "pdf-to-png"

def DESTINATION_BUCKET : String := "pdf-to-png-output"

/-- `gcsEvent.bucket || BUCKET_NAME` (pdf-to-png.js line 60): a missing or
empty (falsy) bucket falls back to the default bucket. -/
def bucketOrDefault : Option String → String
  | none => BUCKET_NAME
  | some b => if b.isEmpty then BUCKET_NAME else b

/-- Outcomes of the external collaborator calls for one event: whether each
storage / conversion / datastore / webhook call succeeds, and the current
contents of the order-item store. -/
structure Env where
  store : List OrderItem
  downloadOk : Bool
  convertOk : Bool
  uploadOk : Bool
  updateOk : Bool
  queryOk : Bool
  webhookOk : Bool
  deriving DecidableEq

/-- Record of the side effects one invocation performed. -/
structure Effects where
  tempDirCreated : Bool := false
  tempDirDeleted : Bool := false
  downloadSource : Option (String × String) := none
  convertAttempted : Bool := false
  uploadedKey : Option (String × String) := none
  dbWriteAttempted : Bool := false
  dbWriteId : Option String := none
  webhookAttempts : List (String × Bool) := []
  deriving DecidableEq

/-- Result of one push-endpoint invocation: HTTP status sent, effects
performed, and the order-item store afterwards. -/
structure HandlerResult where
  status : Nat
  effects : Effects
  store : List OrderItem
  deriving DecidableEq

/-! ## Push-endpoint handler (`src/Docker/pdf-to-png.js`)

The handler body (lines 35-139) is one big `try`: every await that rejects
after input validation jumps to the `catch`, which logs and answers
`sendStatus(200)` without running the cleanup of line 131.  Each early
`return` and each failure point below is a literal terminal of the
translation, carrying exactly the effects performed up to that point. -/

/-- Lines 82-134 plus the surrounding catch, entered once a `.pdf` key has
matched the filename regex: create temp dir, download, convert, upload,
conditionally update the datastore, aggregate, conditionally call the
webhook, then cleanup and answer 200.  A rejection at any await ends the
invocation with status 200 and no cleanup (the catch of lines 135-138). -/
def runPipeline (env : Env) (ev : GcsEvent) (filePath orderId orderItemId : String) :
    HandlerResult :=
  let e1 : Effects := { tempDirCreated := true }
  let e2 : Effects :=
    { e1 with downloadSource := some (bucketOrDefault ev.bucket, filePath) }
  if !env.downloadOk then { status := 200, effects := e2, store := env.store }
  else
    let e3 : Effects := { e2 with convertAttempted := true }
    if !env.convertOk then { status := 200, effects := e3, store := env.store }
    else
      let newKey := newFilePath filePath
      if !env.uploadOk then { status := 200, effects := e3, store := env.store }
      else
        let e4 : Effects := { e3 with uploadedKey := some (DESTINATION_BUCKET, newKey) }
        if orderId.isEmpty || orderItemId.isEmpty then
          { status := 200, effects := { e4 with tempDirDeleted := true }, store := env.store }
        else
          let e5 : Effects := { e4 with dbWriteAttempted := true }
          if !env.updateOk then { status := 200, effects := e5, store := env.store }
          else
            let store1 := markExtracted env.store orderItemId
            let e6 : Effects := { e5 with dbWriteId := some orderItemId }
            if !env.queryOk then { status := 200, effects := e6, store := store1 }
            else
              let matched := store1.filter (fun r => r.order = orderId)
              if matched.isEmpty then
                { status := 200, effects := { e6 with tempDirDeleted := true },
                  store := store1 }
              else
                let approved :=
                  matched.filter (fun r => r.orderItemStatus = approvedStatus)
                let allExtracted := approved.all (fun r => r.pngExtracted)
                if allExtracted then
                  let e7 : Effects :=
                    { e6 with webhookAttempts := [(orderId, env.webhookOk)] }
                  { status := 200, effects := { e7 with tempDirDeleted := true },
                    store := store1 }
                else
                  { status := 200, effects := { e6 with tempDirDeleted := true },
                    store := store1 }

/-- Lines 59-80: read the file path from the decoded event, ignore non-PDF
keys with a 200, reject keys without the `(orderId)(orderItemId)` pattern
with a 400, otherwise run the pipeline.  A missing `name` makes
`filePath.toLowerCase()` throw, which the catch answers with 200. -/
def processEvent (env : Env) (ev : GcsEvent) : HandlerResult :=
  match ev.name with
  | none => { status := 200, effects := {}, store := env.store }
  | some filePath =>
    if endsWithPdf filePath then
      match findIds filePath with
      | some (orderId, orderItemId) => runPipeline env ev filePath orderId orderItemId
      | none => { status := 400, effects := {}, store := env.store }
    else { status := 200, effects := {}, store := env.store }

/-- Lines 45-57: envelope validation and payload decoding.  `decode` stands
for `Buffer.from(data, 'base64').toString` followed by `JSON.parse`
(external library calls); `none` covers a parse failure or a decoded value
on which property access throws, both of which the catch answers with 200.
A missing `message`, a missing `data`, or an empty (falsy) `data` string
answers 400 before any side effect. -/
def handlePost (decode : String → Option GcsEvent) (env : Env) (body : ReqBody) :
    HandlerResult :=
  match body.message with
  | none => { status := 400, effects := {}, store := env.store }
  | some msg =>
    match msg.data with
    | none => { status := 400, effects := {}, store := env.store }
    | some d =>
      if d.isEmpty then { status := 400, effects := {}, store := env.store }
      else
        match decode d with
        | none => { status := 200, effects := {}, store := env.store }
        | some ev => processEvent env ev

/-! ## Direct storage-event handler (`src/unnamed/part_000`) -/

/-- The object descriptor the platform passes to `createImage`
(part_000 lines 15-18); `bucket` and `name` are always present on a
storage finalize event. -/
structure StorageObject where
  bucket : String
  name : String
  deriving DecidableEq

/-- Result of one `createImage` invocation: whether the returned promise
resolved (`ok = true`) or rejected, and the effects performed.  The
function touches no datastore and no webhook. -/
structure DirectResult where
  ok : Bool
  effects : Effects
  deriving DecidableEq

/-- `exports.createImage` (part_000 lines 15-48): skip non-PDF keys, then
create temp dir, download, convert, upload the `.png` key to the same
bucket, cleanup.  There is no try/catch: a rejected await rejects the whole
function, skipping the cleanup of line 43. -/
def createImage (env : Env) (obj : StorageObject) : DirectResult :=
  if !endsWithPdf obj.name then { ok := true, effects := {} }
  else
    let e1 : Effects := { tempDirCreated := true }
    let e2 : Effects := { e1 with downloadSource := some (obj.bucket, obj.name) }
    if !env.downloadOk then { ok := false, effects := e2 }
    else
      let e3 : Effects := { e2 with convertAttempted := true }
      if !env.convertOk then { ok := false, effects := e3 }
      else
        let newKey := newFilePath obj.name
        if !env.uploadOk then { ok := false, effects := e3 }
        else
          { ok := true,
            effects := { e3 with uploadedKey := some (obj.bucket, newKey),
                                 tempDirDeleted := true } }

/-! ## Derived predicates and auxiliary models -/

/-- The validation condition of pdf-to-png.js line 46,
`!pubsubMessage || !pubsubMessage.data`: the envelope lacks a usable
`message.data` (missing message, missing data field, or empty data string,
all falsy in JavaScript). -/
def lacksMessageData (body : ReqBody) : Bool :=
  match body.message with
  | none => true
  | some msg =>
    match msg.data with
    | none => true
    | some d => d.isEmpty

/-- The exact condition under which the push endpoint answers 400: the
envelope lacks `message.data`, or the payload decodes to an event whose
key is a `.pdf` (case-insensitively) that fails the filename pattern. -/
def wants400 (decode : String → Option GcsEvent) (body : ReqBody) : Bool :=
  match body.message with
  | none => true
  | some msg =>
    match msg.data with
    | none => true
    | some d =>
      if d.isEmpty then true
      else
        match decode d with
        | none => false
        | some ev =>
          match ev.name with
          | none => false
          | some n => endsWithPdf n && (findIds n).isNone

/-- The regex `\(([^)]+)\)\(([^)]+)\)` matches somewhere in `l` with capture
groups `g1` and `g2`: some occurrence of a literal `(`, the non-empty group
`g1` of non-`)` characters, `)`, `(`, the non-empty group `g2` of non-`)`
characters, `)`. -/
def IdMatch (l g1 g2 : List Char) : Prop :=
  ∃ pre post,
    l = pre ++ '(' :: (g1 ++ ')' :: '(' :: (g2 ++ ')' :: post)) ∧
    g1 ≠ [] ∧ g2 ≠ [] ∧ (∀ c ∈ g1, c ≠ ')') ∧ (∀ c ∈ g2, c ≠ ')')

/-- `createTempDir`: `fileName.replace(/\//g, '_').replace(/\./g, '_')`
(pdf-to-png.js line 142, part_000 line 52).  Slashes and dots become
underscores; every other character, spaces and parentheses included, is
kept. -/
def safeName (s : String) : String :=
  String.mk (s.data.map (fun c => if c = '/' ∨ c = '.' then '_' else c))

/-- `filePath.split('/').pop()` (pdf-to-png.js line 150, part_000 line 61):
the segment after the last slash, i.e. the base name of the object key. -/
def basenameOf (s : String) : String :=
  String.mk ((s.data.reverse.takeWhile (fun c => c != '/')).reverse)

/-- The quoted conversion argument of the push variant
(pdf-to-png.js line 160): the path wrapped in literal double quotes. -/
def quotedArg (p : String) : String := "\"" ++ p ++ "\""

/-- The conversion argument of the direct variant (part_000 lines 77-78):
the raw path, interpolated with no quoting at all. -/
def rawArg (p : String) : String := p

/-- Simplified POSIX word splitting of the command line that the external
tool invocation amounts to (spec sections 4.3 and 9: the arguments are
interpolated into a concatenated command string): double quotes toggle
literal mode, unquoted spaces separate words, the quote characters
themselves are removed.  `inQ` is the quote state and `cur` the reversed
current word. -/
def shellWordsGo : List Char → Bool → List Char → List String
  | [], _, cur => if cur.isEmpty then [] else [String.mk cur.reverse]
  | '"' :: rest, inQ, cur => shellWordsGo rest (!inQ) cur
  | ' ' :: rest, false, cur =>
    if cur.isEmpty then shellWordsGo rest false []
    else String.mk cur.reverse :: shellWordsGo rest false []
  | c :: rest, inQ, cur => shellWordsGo rest inQ (c :: cur)

/-- The words an interpolated argument contributes to the external command
line. -/
def shellWords (s : String) : List String := shellWordsGo s.data false []

/-- An environment in which every external call succeeds and the store is
empty; concrete instantiations below adjust individual fields. -/
def envAllOk : Env :=
  { store := [], downloadOk := true, convertOk := true, uploadOk := true,
    updateOk := true, queryOk := true, webhookOk := true }

/-! ## Helper lemmas -/

/-- Once the pipeline is entered, every exit path, success or failure,
answers HTTP 200 (the catch of lines 135-138 acknowledges failures). -/
theorem runPipeline_status (env : Env) (ev : GcsEvent) (fp oid iid : String) :
    (runPipeline env ev fp oid iid).status = 200 := by
  unfold runPipeline
  dsimp only
  repeat' split
  all_goals rfl

/-- The push handler answers 400 after decoding exactly when the key is a
`.pdf` that fails the filename pattern. -/
theorem processEvent_status_iff (env : Env) (ev : GcsEvent) :
    (processEvent env ev).status = 400 ↔
      (∃ n, ev.name = some n ∧ endsWithPdf n = true ∧ findIds n = none) := by
  unfold processEvent
  cases hn : ev.name with
  | none => simp
  | some n =>
    by_cases hp : endsWithPdf n
    · cases hf : findIds n with
      | none => simp [hp, hf]
      | some p =>
        cases p with
        | mk oid iid => simp [hp, hf, runPipeline_status]
    · simp [hp]

/-- The decoded event is always answered with either 200 or 400. -/
theorem processEvent_status_cases (env : Env) (ev : GcsEvent) :
    (processEvent env ev).status = 200 ∨ (processEvent env ev).status = 400 := by
  unfold processEvent
  cases hn : ev.name with
  | none => simp
  | some n =>
    by_cases hp : endsWithPdf n
    · cases hf : findIds n with
      | none => simp [hp, hf]
      | some p =>
        cases p with
        | mk oid iid => simp [hp, hf, runPipeline_status]
    · simp [hp]

/-- Characterisation of the `.pdf` suffix test: the lowered reversed
character list starts with `f`, `d`, `p`, `.`. -/
theorem endsWithPdf_exists {s : String} (h : endsWithPdf s = true) :
    ∃ t, (s.data.map Char.toLower).reverse = 'f' :: 'd' :: 'p' :: '.' :: t := by
  unfold endsWithPdf at h
  split at h
  case _ c0 c1 c2 c3 t heq =>
    simp only [Bool.and_eq_true, decide_eq_true_eq] at h
    obtain ⟨⟨⟨h0, h1⟩, h2⟩, h3⟩ := h
    subst h0; subst h1; subst h2; subst h3
    exact ⟨t, heq⟩
  case _ => cases h

/-- A key ending in `.pdf` has at least four characters. -/
theorem endsWithPdf_four_le {s : String} (h : endsWithPdf s = true) :
    4 ≤ s.data.length := by
  obtain ⟨t, ht⟩ := endsWithPdf_exists h
  have hl := congrArg List.length ht
  simp only [List.length_reverse, List.length_map, List.length_cons] at hl
  omega

/-- Prepending any prefix preserves the `.pdf` suffix test. -/
theorem endsWithPdf_append (a b : String) (h : endsWithPdf b = true) :
    endsWithPdf (a ++ b) = true := by
  obtain ⟨t, ht⟩ := endsWithPdf_exists h
  unfold endsWithPdf
  rw [String.data_append, List.map_append, List.reverse_append, ht]
  simp

/-- The suffix replacement commutes with any directory prefix. -/
theorem newFilePath_append (a b : String) (h : endsWithPdf b = true) :
    newFilePath (a ++ b) = a ++ newFilePath b := by
  have hab := endsWithPdf_append a b h
  have hlen := endsWithPdf_four_le h
  unfold newFilePath
  rw [if_pos hab, if_pos h]
  apply String.ext
  rw [String.data_append]
  show ((a ++ b).data.take ((a ++ b).data.length - 4) ++ ".png".data) =
    a.data ++ (b.data.take (b.data.length - 4) ++ ".png".data)
  rw [String.data_append, List.length_append, List.take_append_eq_append_take]
  rw [List.take_of_length_le (by omega)]
  have harith : a.data.length + b.data.length - 4 - a.data.length =
      b.data.length - 4 := by
    omega
  rw [harith, List.append_assoc]

/-- The only key the pipeline ever uploads to is the derived `.png` key in
the destination bucket. -/
theorem runPipeline_uploadedKey (env : Env) (ev : GcsEvent) (fp oid iid : String)
    (k : String × String)
    (h : (runPipeline env ev fp oid iid).effects.uploadedKey = some k) :
    k = (DESTINATION_BUCKET, newFilePath fp) := by
  unfold runPipeline at h
  dsimp only at h
  repeat' split at h
  all_goals simp_all

/-- The pipeline leaves the store unchanged or applies exactly
`markExtracted` for the extracted item id. -/
theorem runPipeline_store (env : Env) (ev : GcsEvent) (fp oid iid : String) :
    (runPipeline env ev fp oid iid).store = env.store ∨
    (runPipeline env ev fp oid iid).store = markExtracted env.store iid := by
  unfold runPipeline
  dsimp only
  repeat' split
  all_goals simp

/-- If the pipeline attempted the webhook at all, it had already uploaded
and written the datastore, and it still cleans up and answers 200. -/
theorem runPipeline_webhook (env : Env) (ev : GcsEvent) (fp oid iid : String) :
    (runPipeline env ev fp oid iid).effects.webhookAttempts = [] ∨
    ((runPipeline env ev fp oid iid).status = 200 ∧
     (runPipeline env ev fp oid iid).effects.tempDirDeleted = true ∧
     (runPipeline env ev fp oid iid).effects.uploadedKey ≠ none ∧
     (runPipeline env ev fp oid iid).effects.dbWriteId ≠ none) := by
  unfold runPipeline
  dsimp only
  repeat' split
  all_goals simp

/-- The webhook outcome influences nothing in the pipeline result beyond
the recorded outcome bit of the attempt itself. -/
theorem runPipeline_webhookOk (env : Env) (ev : GcsEvent) (fp oid iid : String)
    (b : Bool) :
    runPipeline { env with webhookOk := b } ev fp oid iid =
    { runPipeline env ev fp oid iid with
        effects := { (runPipeline env ev fp oid iid).effects with
          webhookAttempts :=
            (runPipeline env ev fp oid iid).effects.webhookAttempts.map
              (fun p => (p.1, b)) } } := by
  unfold runPipeline
  dsimp only
  repeat' split
  all_goals rfl

/-- Store frame of the whole push handler: untouched, or exactly one
`markExtracted` with the id extracted from the key. -/
theorem processEvent_store (env : Env) (ev : GcsEvent) :
    (processEvent env ev).store = env.store ∨
    ∃ n oid iid, ev.name = some n ∧ findIds n = some (oid, iid) ∧
      (processEvent env ev).store = markExtracted env.store iid := by
  unfold processEvent
  cases hn : ev.name with
  | none => simp
  | some n =>
    by_cases hp : endsWithPdf n
    · cases hf : findIds n with
      | none => simp [hp, hf]
      | some p =>
        obtain ⟨oid, iid⟩ := p
        simp only [hp, hf, if_pos]
        rcases runPipeline_store env ev n oid iid with h | h
        · exact Or.inl h
        · exact Or.inr ⟨n, oid, iid, rfl, hf, h⟩
    · simp [hp]

/-- On a list of non-`)` characters followed by `)`, the maximal non-`)`
run is that list and the remainder starts at the `)`. -/
theorem notRparen_stop {g : List Char} (hg : ∀ c ∈ g, c ≠ ')') (t : List Char) :
    (g ++ ')' :: t).takeWhile (fun x => x != ')') = g ∧
    (g ++ ')' :: t).dropWhile (fun x => x != ')') = ')' :: t := by
  induction g with
  | nil =>
    constructor
    · simp [List.takeWhile_cons]
    · simp [List.dropWhile_cons]
  | cons c g ih =>
    have hc : (c != ')') = true := bne_iff_ne.mpr (hg c (by simp))
    have ih2 := ih (fun x hx => hg x (by simp [hx]))
    constructor
    · simp only [List.cons_append, List.takeWhile_cons, hc, if_true]
      rw [ih2.1]
    · simp only [List.cons_append, List.dropWhile_cons, hc, if_true]
      exact ih2.2

/-- The positional matcher succeeds on an exact pattern occurrence and
returns precisely the two groups. -/
theorem matchIdsAt_eq (g1 g2 post : List Char) (h1 : g1 ≠ []) (h2 : g2 ≠ [])
    (h3 : ∀ c ∈ g1, c ≠ ')') (h4 : ∀ c ∈ g2, c ≠ ')') :
    matchIdsAt ('(' :: (g1 ++ ')' :: '(' :: (g2 ++ ')' :: post))) = some (g1, g2) := by
  have t1 := notRparen_stop h3 ('(' :: (g2 ++ ')' :: post))
  have t2 := notRparen_stop h4 post
  simp only [matchIdsAt, t1.1, t1.2, t2.1, t2.2]
  simp [h1, h2]

/-- The positional matcher only succeeds on an exact pattern occurrence at
the head, with non-empty groups of non-`)` characters. -/
theorem matchIdsAt_sound {l g1 g2 : List Char} (h : matchIdsAt l = some (g1, g2)) :
    ∃ post, l = '(' :: (g1 ++ ')' :: '(' :: (g2 ++ ')' :: post)) ∧
      g1 ≠ [] ∧ g2 ≠ [] ∧ (∀ c ∈ g1, c ≠ ')') ∧ (∀ c ∈ g2, c ≠ ')') := by
  unfold matchIdsAt at h
  split at h
  case _ rest =>
    split at h
    case _ => exact absurd h (by simp)
    case _ hne1 =>
      split at h
      case _ rest2 heq1 =>
        split at h
        case _ => exact absurd h (by simp)
        case _ hne2 =>
          split at h
          case _ tail heq2 =>
            injection h with h
            injection h with hg1 hg2
            subst hg1; subst hg2
            have e1 : rest.takeWhile (fun x => x != ')') ++
                rest.dropWhile (fun x => x != ')') = rest :=
              List.takeWhile_append_dropWhile ..
            have e2 : rest2.takeWhile (fun x => x != ')') ++
                rest2.dropWhile (fun x => x != ')') = rest2 :=
              List.takeWhile_append_dropWhile ..
            refine ⟨tail, ?_, ?_, ?_, ?_, ?_⟩
            · have hr :
                  rest = rest.takeWhile (fun x => x != ')') ++ ')' :: '(' ::
                    (rest2.takeWhile (fun x => x != ')') ++ ')' :: tail) := by
                calc rest = rest.takeWhile (fun x => x != ')') ++
                      rest.dropWhile (fun x => x != ')') := e1.symm
                  _ = rest.takeWhile (fun x => x != ')') ++ ')' :: '(' :: rest2 := by
                      rw [heq1]
                  _ = rest.takeWhile (fun x => x != ')') ++ ')' :: '(' ::
                      (rest2.takeWhile (fun x => x != ')') ++
                        rest2.dropWhile (fun x => x != ')')) := by rw [e2]
                  _ = rest.takeWhile (fun x => x != ')') ++ ')' :: '(' ::
                      (rest2.takeWhile (fun x => x != ')') ++ ')' :: tail) := by
                      rw [heq2]
              rw [← hr]
            · simpa using hne1
            · simpa using hne2
            · intro c hc
              have hpc := List.mem_takeWhile_imp hc
              simp only [bne_iff_ne, ne_eq] at hpc
              exact hpc
            · intro c hc
              have hpc := List.mem_takeWhile_imp hc
              simp only [bne_iff_ne, ne_eq] at hpc
              exact hpc
          case _ => exact absurd h (by simp)
      case _ => exact absurd h (by simp)
  case _ => exact absurd h (by simp)

/-- A successful scan yields a genuine pattern occurrence with the
returned capture groups. -/
theorem findIdsAux_sound :
    ∀ {l : List Char} {a b : String}, findIdsAux l = some (a, b) →
      IdMatch l a.data b.data := by
  intro l
  induction l with
  | nil => intro a b h; exact absurd h (by simp [findIdsAux])
  | cons c rest ih =>
    intro a b h
    unfold findIdsAux at h
    split at h
    case _ g1 g2 heq =>
      injection h with h
      injection h with ha hb
      obtain ⟨post, hdec, h1, h2, h3, h4⟩ := matchIdsAt_sound heq
      refine ⟨[], post, ?_, ?_, ?_, ?_, ?_⟩
      · rw [← ha, ← hb]
        simpa using hdec
      · rw [← ha]; simpa using h1
      · rw [← hb]; simpa using h2
      · rw [← ha]; simpa using h3
      · rw [← hb]; simpa using h4
    case _ heq =>
      obtain ⟨pre, post, hdec, h1, h2, h3, h4⟩ := ih h
      exact ⟨c :: pre, post, by rw [hdec, List.cons_append], h1, h2, h3, h4⟩

/-- If the pattern occurs anywhere in the list, the scan succeeds. -/
theorem findIdsAux_complete {g1 g2 : List Char} (h1 : g1 ≠ []) (h2 : g2 ≠ [])
    (h3 : ∀ c ∈ g1, c ≠ ')') (h4 : ∀ c ∈ g2, c ≠ ')') :
    ∀ (pre post : List Char),
      (findIdsAux (pre ++ '(' :: (g1 ++ ')' :: '(' :: (g2 ++ ')' :: post)))).isSome =
        true := by
  intro pre
  induction pre with
  | nil =>
    intro post
    rw [List.nil_append]
    unfold findIdsAux
    rw [matchIdsAt_eq g1 g2 post h1 h2 h3 h4]
    rfl
  | cons c pre ih =>
    intro post
    rw [List.cons_append]
    unfold findIdsAux
    split
    · rfl
    · exact ih post

/-! ## Claim theorems -/

/-- C1: the claim says the workspace created for an event is deleted on
every exit path, including download, conversion, or upload failures.  The
code deletes it only on the success path: in the push variant a rejected
download jumps to the catch, which answers 200 without running the cleanup
of line 131, and in the direct variant a rejected conversion rejects the
whole function before the cleanup of line 43.  At a well-formed `.pdf`
event with a failing download (push) or failing conversion (direct), the
temp directory is created and never deleted. -/
theorem c1_workspace_not_cleaned_on_failure :
    (let env : Env := { envAllOk with downloadOk := false }
     let r := processEvent env { bucket := some "pdf-to-png", name := some "doc(O1)(I1).pdf" }
     r.status = 200 ∧ r.effects.tempDirCreated = true ∧ r.effects.tempDirDeleted = false) ∧
    (let env : Env := { envAllOk with convertOk := false }
     let d := createImage env { bucket := "pdf-to-png", name := "doc(O1)(I1).pdf" }
     d.ok = false ∧ d.effects.tempDirCreated = true ∧ d.effects.tempDirDeleted = false) := by
  decide

/-- C2: the claim says the completion check is true iff the set of the
order's approved items is non-empty and all of them have `pngExtracted`.
The code instead guards only on the order having any matching items and
then uses `every` on the approved-filtered list, which is vacuously true
when that list is empty: with a single matching item whose status is not
the approved sentinel, the webhook still fires although the approved set
is empty. -/
theorem c2_webhook_fires_with_no_approved_items :
    (let env : Env :=
      { envAllOk with store := [{ orderItemId := "I1", order := "O1",
                                  orderItemStatus := "pending", pngExtracted := false }] }
     let r := processEvent env { bucket := some "pdf-to-png", name := some "doc(O1)(I1).pdf" }
     r.effects.webhookAttempts = [("O1", true)] ∧
     r.store.filter (fun it => it.orderItemStatus = approvedStatus) = []) := by
  decide

/-- C3 counterexample: the claim says the response is 400 exactly when the
body lacks `message.data` or the key does not match the filename pattern.
A decodable event whose key `scan.txt` does not match the pattern (and is
not a `.pdf`) is answered 200, refuting the stated biconditional. -/
theorem c3_nonmatching_nonpdf_key_answers_200 :
    ¬ (((handlePost (fun _ => some { bucket := some "pdf-to-png", name := some "scan.txt" })
          envAllOk { message := some { data := some "payload" } }).status = 400) ↔
        (lacksMessageData { message := some { data := some "payload" } } = true ∨
          findIds "scan.txt" = none)) := by
  decide

/-- C3 amended: the response is 400 exactly when the body lacks a usable
`message.data`, or the decoded key ends in `.pdf` (case-insensitively) but
fails the filename pattern; every other case, non-PDF keys, undecodable
payloads and business-logic failures included, is answered 200, and a
request lacking `message.data` produces no side effects. -/
theorem c3_response_status_contract (decode : String → Option GcsEvent) (env : Env)
    (body : ReqBody) :
    ((handlePost decode env body).status = 400 ↔ wants400 decode body = true) ∧
    ((handlePost decode env body).status = 200 ∨ (handlePost decode env body).status = 400) ∧
    (lacksMessageData body = true →
      (handlePost decode env body).effects = {} ∧
      (handlePost decode env body).store = env.store) := by
  obtain ⟨message⟩ := body
  cases message with
  | none => simp [handlePost, wants400, lacksMessageData]
  | some msg =>
    obtain ⟨dataOpt⟩ := msg
    cases dataOpt with
    | none => simp [handlePost, wants400, lacksMessageData]
    | some d =>
      by_cases he : d.isEmpty
      · simp [handlePost, wants400, lacksMessageData, he]
      · cases hdec : decode d with
        | none => simp [handlePost, wants400, lacksMessageData, he, hdec]
        | some ev =>
          simp only [handlePost, wants400, lacksMessageData, he, hdec, if_false,
            Bool.false_eq_true]
          refine ⟨?_, processEvent_status_cases env ev, by simp [he]⟩
          rw [processEvent_status_iff]
          cases hn : ev.name with
          | none => simp
          | some n =>
            by_cases hp : endsWithPdf n
            · cases hf : findIds n <;> simp [hp, hf]
            · simp [hp]

/-- Witness for C3: a body without `message` is answered 400 with no
effects and an unchanged store. -/
theorem c3_response_status_contract_witness :
    (handlePost (fun _ => none) envAllOk { message := none }).status = 400 ∧
    (handlePost (fun _ => none) envAllOk { message := none }).effects = {} ∧
    (handlePost (fun _ => none) envAllOk { message := none }).store = [] := by
  have h := c3_response_status_contract (fun _ => none) envAllOk { message := none }
  exact ⟨h.1.mpr (by decide), (h.2.2 rfl).1, (h.2.2 rfl).2⟩

/-- C4: for every object key that does not end in `.pdf`
(case-insensitively), both trigger variants exit early: the push variant
answers 200 with no effects and an unchanged store, and the direct variant
resolves with no effects; in particular no download, conversion, or upload
is performed. -/
theorem c4_nonpdf_skips_all_effects (env : Env) (ev : GcsEvent) (n : String)
    (obj : StorageObject) (h1 : ev.name = some n) (h2 : endsWithPdf n = false)
    (h3 : endsWithPdf obj.name = false) :
    processEvent env ev = { status := 200, effects := {}, store := env.store } ∧
    createImage env obj = { ok := true, effects := {} } := by
  constructor
  · unfold processEvent
    rw [h1]
    simp [h2]
  · unfold createImage
    simp [h3]

/-- Witness for C4: a `.txt` key is ignored by both variants. -/
theorem c4_nonpdf_skips_all_effects_witness :
    processEvent envAllOk { bucket := some "b", name := some "notes.txt" } =
      { status := 200, effects := {}, store := [] } ∧
    createImage envAllOk { bucket := "b", name := "notes.txt" } =
      { ok := true, effects := {} } :=
  c4_nonpdf_skips_all_effects envAllOk { bucket := some "b", name := some "notes.txt" }
    "notes.txt" { bucket := "b", name := "notes.txt" } rfl (by decide) (by decide)

/-- C5: whenever either variant uploads, the uploaded key is the input key
with its trailing `.pdf` (case-insensitive) replaced by `.png`; the
replacement rewrites exactly the last four characters and commutes with
any directory prefix. -/
theorem c5_output_key_replaces_pdf_suffix (env : Env) (ev : GcsEvent)
    (obj : StorageObject) (k k2 : String × String) (dir rest : String)
    (h1 : (processEvent env ev).effects.uploadedKey = some k)
    (h2 : (createImage env obj).effects.uploadedKey = some k2)
    (h3 : endsWithPdf rest = true) :
    (∃ n, ev.name = some n ∧ endsWithPdf n = true ∧
      k = (DESTINATION_BUCKET, newFilePath n)) ∧
    (endsWithPdf obj.name = true ∧ k2 = (obj.bucket, newFilePath obj.name)) ∧
    newFilePath (dir ++ rest) = dir ++ newFilePath rest ∧
    (newFilePath rest).data = rest.data.take (rest.data.length - 4) ++ ".png".data := by
  refine ⟨?_, ?_, newFilePath_append dir rest h3, ?_⟩
  · unfold processEvent at h1
    cases hn : ev.name with
    | none => rw [hn] at h1; simp at h1
    | some n =>
      rw [hn] at h1
      dsimp only at h1
      by_cases hp : endsWithPdf n
      · cases hf : findIds n with
        | none => rw [if_pos hp, hf] at h1; simp at h1
        | some p =>
          obtain ⟨oid, iid⟩ := p
          rw [if_pos hp, hf] at h1
          exact ⟨n, rfl, hp, runPipeline_uploadedKey env ev n oid iid k h1⟩
      · rw [if_neg hp] at h1; simp at h1
  · unfold createImage at h2
    by_cases hp : endsWithPdf obj.name
    · refine ⟨hp, ?_⟩
      rw [if_neg (by simp [hp])] at h2
      dsimp only at h2
      repeat' split at h2
      all_goals simp_all
    · rw [if_pos (by simp [hp])] at h2
      simp at h2
  · unfold newFilePath
    rw [if_pos h3]

/-- Witness for C5: concrete uploads in both variants and a concrete
prefix-preserving replacement. -/
theorem c5_output_key_replaces_pdf_suffix_witness :
    (∃ n, (some "case(O100)(I1).pdf" : Option String) = some n ∧
      endsWithPdf n = true ∧
      ("pdf-to-png-output", "case(O100)(I1).png") = (DESTINATION_BUCKET, newFilePath n)) ∧
    (endsWithPdf "x.PDF" = true ∧ ("b", "x.png") = ("b", newFilePath "x.PDF")) ∧
    newFilePath ("dir/" ++ "a.pdf") = "dir/" ++ newFilePath "a.pdf" ∧
    (newFilePath "a.pdf").data = "a.pdf".data.take ("a.pdf".data.length - 4) ++ ".png".data :=
  c5_output_key_replaces_pdf_suffix envAllOk
    { bucket := some "b", name := some "case(O100)(I1).pdf" }
    { bucket := "b", name := "x.PDF" }
    ("pdf-to-png-output", "case(O100)(I1).png") ("b", "x.png") "dir/" "a.pdf"
    (by decide) (by decide) (by decide)

/-- C6: the filename parser succeeds exactly on keys containing, anywhere,
a literal `(`, one or more non-`)` characters, `)`, `(`, one or more
non-`)` characters, `)`, and a success returns a genuine such occurrence
as the two capture groups; concretely, `invoice(ORD1)(ITEM1).pdf` parses
to orderId `ORD1` and orderItemId `ITEM1`, and `invoice.pdf` yields no
identifiers. -/
theorem c6_filename_pattern_parse :
    (∀ (s a b : String), findIds s = some (a, b) → IdMatch s.data a.data b.data) ∧
    (∀ (s : String) (g1 g2 : List Char), IdMatch s.data g1 g2 →
      (findIds s).isSome = true) ∧
    findIds "invoice(ORD1)(ITEM1).pdf" = some ("ORD1", "ITEM1") ∧
    findIds "invoice.pdf" = none := by
  refine ⟨?_, ?_, by decide, by decide⟩
  · intro s a b h
    exact findIdsAux_sound h
  · intro s g1 g2 hm
    obtain ⟨pre, post, hdec, h1, h2, h3, h4⟩ := hm
    unfold findIds
    rw [hdec]
    exact findIdsAux_complete h1 h2 h3 h4 pre post

/-- Witness for C6: the concrete parse of the documented example. -/
theorem c6_filename_pattern_parse_witness :
    findIds "invoice(ORD1)(ITEM1).pdf" = some ("ORD1", "ITEM1") :=
  c6_filename_pattern_parse.2.2.1

/-- C7: the webhook outcome never influences the rest of the handling: the
result for a failed webhook equals the result for a successful one except
for the recorded outcome bit, and whenever the webhook was attempted at
all, the handler still answers 200, the workspace is cleaned, and the
upload and datastore write remain in place. -/
theorem c7_webhook_failure_is_local (env : Env) (ev : GcsEvent) (b : Bool) :
    (processEvent { env with webhookOk := b } ev =
      { processEvent env ev with
          effects := { (processEvent env ev).effects with
            webhookAttempts :=
              (processEvent env ev).effects.webhookAttempts.map (fun p => (p.1, b)) } }) ∧
    ((processEvent env ev).effects.webhookAttempts ≠ [] →
      (processEvent env ev).status = 200 ∧
      (processEvent env ev).effects.tempDirDeleted = true ∧
      (processEvent env ev).effects.uploadedKey ≠ none ∧
      (processEvent env ev).effects.dbWriteId ≠ none) := by
  constructor
  · unfold processEvent
    cases hn : ev.name with
    | none => rfl
    | some n =>
      by_cases hp : endsWithPdf n
      · cases hf : findIds n with
        | none => simp [hp, hf]
        | some p =>
          obtain ⟨oid, iid⟩ := p
          simp only [hp, hf, if_pos]
          exact runPipeline_webhookOk env ev n oid iid b
      · simp [hp]
  · unfold processEvent
    cases hn : ev.name with
    | none => simp
    | some n =>
      by_cases hp : endsWithPdf n
      · cases hf : findIds n with
        | none => simp [hp, hf]
        | some p =>
          obtain ⟨oid, iid⟩ := p
          simp only [hp, hf, if_pos]
          intro hne
          rcases runPipeline_webhook env ev n oid iid with h | h
          · exact absurd h hne
          · exact h
      · simp [hp]

/-- Witness for C7: with one approved sibling and a failing webhook, the
event is still answered 200 with the workspace cleaned and the upload and
datastore write in place. -/
theorem c7_webhook_failure_is_local_witness :
    (processEvent { envAllOk with
        store := [{ orderItemId := "I1", order := "O1",
                    orderItemStatus := approvedStatus, pngExtracted := false }],
        webhookOk := false }
      { bucket := some "b", name := some "a(O1)(I1).pdf" }).status = 200 ∧
    (processEvent { envAllOk with
        store := [{ orderItemId := "I1", order := "O1",
                    orderItemStatus := approvedStatus, pngExtracted := false }],
        webhookOk := false }
      { bucket := some "b", name := some "a(O1)(I1).pdf" }).effects.tempDirDeleted = true ∧
    (processEvent { envAllOk with
        store := [{ orderItemId := "I1", order := "O1",
                    orderItemStatus := approvedStatus, pngExtracted := false }],
        webhookOk := false }
      { bucket := some "b", name := some "a(O1)(I1).pdf" }).effects.uploadedKey ≠ none ∧
    (processEvent { envAllOk with
        store := [{ orderItemId := "I1", order := "O1",
                    orderItemStatus := approvedStatus, pngExtracted := false }],
        webhookOk := false }
      { bucket := some "b", name := some "a(O1)(I1).pdf" }).effects.dbWriteId ≠ none := by
  have h := (c7_webhook_failure_is_local { envAllOk with
      store := [{ orderItemId := "I1", order := "O1",
                  orderItemStatus := approvedStatus, pngExtracted := false }],
      webhookOk := false }
    { bucket := some "b", name := some "a(O1)(I1).pdf" } false).2 (by decide)
  exact h

/-- C8: the claim says both variants pass the conversion paths safely even
when they contain shell-significant characters.  The direct variant
interpolates the raw, unquoted path into the tool invocation: for the
documented filename contract a key with a space yields a local path whose
raw interpolation splits into two command words, while the quoted
interpolation of the push variant survives intact. -/
theorem c8_unquoted_path_splits_command :
    (let key := "my file(O1)(I1).pdf"
     let path := "/tmp/" ++ safeName key ++ "_05/" ++ basenameOf key
     shellWords (rawArg path) ≠ [path] ∧ shellWords (quotedArg path) = [path]) := by
  decide

/-- C9: the only datastore write either variant can perform is
`markExtracted`: the push handler's resulting store is the input store or
`markExtracted` of it for a single id, and `markExtracted` itself neither
creates nor deletes records and changes no field other than
`pngExtracted` of the matching record. -/
theorem c9_store_write_frame (decode : String → Option GcsEvent) (env : Env)
    (body : ReqBody) :
    ((handlePost decode env body).store = env.store ∨
      ∃ iid, (handlePost decode env body).store = markExtracted env.store iid) ∧
    (∀ (store : List OrderItem) (id : String),
      (markExtracted store id).length = store.length) ∧
    (∀ (store : List OrderItem) (id : String) (i : Nat),
      (markExtracted store id)[i]? =
        (store[i]?).map
          (fun r => if r.orderItemId = id then { r with pngExtracted := true } else r)) := by
  refine ⟨?_, ?_, ?_⟩
  · obtain ⟨message⟩ := body
    cases message with
    | none => exact Or.inl rfl
    | some msg =>
      obtain ⟨dataOpt⟩ := msg
      cases dataOpt with
      | none => exact Or.inl rfl
      | some d =>
        by_cases he : d.isEmpty
        · simp [handlePost, he]
        · cases hdec : decode d with
          | none => simp [handlePost, he, hdec]
          | some ev =>
            simp only [handlePost, he, hdec, if_false, Bool.false_eq_true]
            rcases processEvent_store env ev with h | ⟨n, oid, iid, _, _, h⟩
            · exact Or.inl h
            · exact Or.inr ⟨iid, h⟩
  · intro store id
    simp [markExtracted]
  · intro store id i
    simp [markExtracted]

/-- Witness for C9: the frame equations at a concrete one-record store and
a concrete handled event. -/
theorem c9_store_write_frame_witness :
    ((handlePost (fun _ => some { bucket := some "b", name := some "a(O1)(I1).pdf" })
        { envAllOk with store := [{ orderItemId := "I1", order := "O1",
                                    orderItemStatus := "pending", pngExtracted := false }] }
        { message := some { data := some "payload" } }).store =
      [{ orderItemId := "I1", order := "O1",
         orderItemStatus := "pending", pngExtracted := false }] ∨
      ∃ iid,
        (handlePost (fun _ => some { bucket := some "b", name := some "a(O1)(I1).pdf" })
          { envAllOk with store := [{ orderItemId := "I1", order := "O1",
                                      orderItemStatus := "pending", pngExtracted := false }] }
          { message := some { data := some "payload" } }).store =
        markExtracted
          [{ orderItemId := "I1", order := "O1",
             orderItemStatus := "pending", pngExtracted := false }] iid) :=
  (c9_store_write_frame (fun _ => some { bucket := some "b", name := some "a(O1)(I1).pdf" })
    { envAllOk with store := [{ orderItemId := "I1", order := "O1",
                                orderItemStatus := "pending", pngExtracted := false }] }
    { message := some { data := some "payload" } }).1

/-- C10: the direct storage-event handler performs no datastore write and
no webhook call on any input, and on the happy path its effects are
exactly the download-convert-upload-cleanup sequence. -/
theorem c10_direct_variant_frame (env : Env) (obj : StorageObject) :
    ((createImage env obj).effects.dbWriteAttempted = false ∧
     (createImage env obj).effects.dbWriteId = none ∧
     (createImage env obj).effects.webhookAttempts = []) ∧
    (endsWithPdf obj.name = true → env.downloadOk = true → env.convertOk = true →
      env.uploadOk = true →
      createImage env obj =
        { ok := true,
          effects := { tempDirCreated := true, tempDirDeleted := true,
                       downloadSource := some (obj.bucket, obj.name),
                       convertAttempted := true,
                       uploadedKey := some (obj.bucket, newFilePath obj.name) } }) := by
  constructor
  · unfold createImage
    dsimp only
    repeat' split
    all_goals simp
  · intro h1 h2 h3 h4
    unfold createImage
    simp [h1, h2, h3, h4]

/-- Witness for C10: the happy-path effect record at a concrete key that
carries the identifier pattern. -/
theorem c10_direct_variant_frame_witness :
    createImage envAllOk { bucket := "b", name := "a(O1)(I1).pdf" } =
      { ok := true,
        effects := { tempDirCreated := true, tempDirDeleted := true,
                     downloadSource := some ("b", "a(O1)(I1).pdf"),
                     convertAttempted := true,
                     uploadedKey := some ("b", newFilePath "a(O1)(I1).pdf") } } :=
  (c10_direct_variant_frame envAllOk { bucket := "b", name := "a(O1)(I1).pdf" }).2
    (by decide) rfl rfl rfl

end PdfToPng
